import Mathlib

/-
Verification of the AiInvestmentHelper chatbot script.

Python strings are modelled as Lean `String` values (a sequence of Unicode
code points); `str.lower()` is modelled by mapping `Char.toLower` over the
characters (faithful on the ASCII range, which covers every keyword the
classifier tests); `pattern in text` is modelled by the substring test
`strIn`; `str.strip()` by `pyStripStr`.  The external inference collaborator
(aisuite chat completion) is modelled as an oracle
`Collaborator : List (String × String) → Except String String` taking the
role-tagged message list and either returning the reply text or failing;
a Python exception raised by the client corresponds to `Except.error`.
-/

/-- Substring primitive: does the pattern start the text?  Models the first
position of Python `pattern in text`. -/
def startsWith : List Char → List Char → Bool
  | [], _ => true
  | _ :: _, [] => false
  | a :: p, b :: s => a == b && startsWith p s

/-- Python substring test `p in s` for strings viewed as character lists. -/
def strIn (p : List Char) : List Char → Bool
  | [] => startsWith p []
  | c :: t => startsWith p (c :: t) || strIn p t

/-- Lowercased character sequence of a string: models `user_input.lower()`. -/
def lowered (s : String) : List Char := s.toList.map Char.toLower

/-- `any(k in text for k in keys)` from the classifier. -/
def kwMatch (keys : List String) (text : List Char) : Bool :=
  keys.any (fun k => strIn k.toList text)

/-- Keyword group for the "Knowledge" category (source order preserved). -/
def knowledgeKeywords : List String :=
  [ "what is", "define", "definition", "difference", "compare", "vs", "versus" ]

/-- Keyword group for the "Advice" category (source order preserved). -/
def adviceKeywords : List String :=
  [ "how to invest", "what should i buy", "recommend", "suggest", "i want to invest" ]

/-- Keyword group for the "Personalized" category (source order preserved). -/
def personalizedKeywords : List String :=
  [ "is it suitable for me", "for my situation", "i have", "my current", "i am", "i want" ]

/-- `classify_question_type` from the source: lowercase the input, test the
three keyword groups in priority order, fall back to "Mixed". -/
def classify_question_type (user_input : String) : String :=
  let text := lowered user_input
  if kwMatch knowledgeKeywords text then "Knowledge"
  else if kwMatch adviceKeywords text then "Advice"
  else if kwMatch personalizedKeywords text then "Personalized"
  else "Mixed"

/-- The inference collaborator: messages in, reply text out, or a failure. -/
abbrev Collaborator := List (String × String) → Except String String

/-- Python `s.strip()` on a character list (whitespace from both ends). -/
def pyStrip (s : List Char) : List Char :=
  ((s.dropWhile Char.isWhitespace).reverse.dropWhile Char.isWhitespace).reverse

/-- Python `s.strip()` on a string. -/
def pyStripStr (s : String) : String := String.mk (pyStrip s.toList)

/-- System prompt of `generate_reasons` (the exact source literal). -/
def reasonsSystemPrompt : String :=
  "Based on the user\x27s question, list five clear and constructive reasons explaining why, in this scenario, it may make sense to consider non-trading financial products such as funds or bonds.\nRewrite the user\x27s question as a title and respond in bullet points.\nExample: If the user asks \x27Can I invest in funds using foreign currency?\x27, your title should be \x27Can I invest in funds using foreign currency? Here are five reasons worth considering:\x27\n\nImportant: Do NOT provide buy/sell instructions. This is educational content only."

/-- `generate_reasons`: one collaborator call, reply stripped of surrounding
whitespace. -/
def generate_reasons (complete : Collaborator) (user_question : String) :
    Except String String :=
  (complete [ ("system", reasonsSystemPrompt), ("user", user_question) ]).map pyStripStr

/-- System prompt used by `generate_advice` when `question_type == "Knowledge"`
(the exact source literal). -/
def knowledgePrompt : String :=
  "You are a financial education expert.\nAnswer concisely in a professional tone.\nUse 3 bullet points to explain the concept, then add 1 sentence on how it relates to funds or bonds.\nEnd with: This is for educational purposes only."

/-- System prompt used by `generate_advice` when
`question_type == "Personalized"` (the exact source literal). -/
def personalizedPrompt : String :=
  "You are a financial educator.\nBased on the user\x27s context, provide 3 example allocation mixes:\n- Conservative\n- Balanced\n- Aggressive\nUse percentages and explain who each fits.\nAvoid buy/sell instructions.\nClearly state: This is not financial advice; for educational purposes only."

/-- System prompt of the `else` branch of `generate_advice`, reached for every
`question_type` other than "Knowledge" and "Personalized" — in particular for
both "Advice" and "Mixed" (the exact source literal). -/
def defaultAdvicePrompt : String :=
  "You are a professional investment educator.\nBased on the reasons below, provide practical, constructive guidance.\nInclude: suggested asset direction, example allocation ratios, and suitable profiles.\nAvoid buy/sell instructions.\nEnd with: For educational purposes only."

/-- The if/elif/else template selection inside `generate_advice`. -/
def adviceSystemPrompt (question_type : String) : String :=
  if question_type = "Knowledge" then knowledgePrompt
  else if question_type = "Personalized" then personalizedPrompt
  else defaultAdvicePrompt

/-- The message list `generate_advice` sends to the collaborator: the selected
system prompt followed by the reasons text as the user message. -/
def adviceMessages (reasons question_type : String) : List (String × String) :=
  [ ("system", adviceSystemPrompt question_type), ("user", reasons) ]

/-- `generate_advice`: one collaborator call with the category-selected system
prompt and the reasons as context, reply stripped. -/
def generate_advice (complete : Collaborator) (reasons question_type : String) :
    Except String String :=
  (complete (adviceMessages reasons question_type)).map pyStripStr

/-- The HTML fragment `full_response` assembled in `chatbot`. -/
def fullResponse (reasons qtype advice : String) : String :=
  "<div style=\x27background-color:#f8f9fa;border-radius:10px;padding:12px\x27>🤖 <b>Investment Reasons</b><br>"
    ++ reasons ++ "<br><br>✅ <b>Recommendation (" ++ qtype ++ ")</b><br>"
    ++ advice ++ "</div>"

/-- The `chatbot` turn handler, instrumented with the number of collaborator
calls it performs.  `user_input` is `Option String` because Gradio may hand
the handler `None` (Python `user_input or ""`).  The handler strips the
input, returns early on an empty result, otherwise chains
`generate_reasons`, `classify_question_type` and `generate_advice` and
appends exactly one (question, response) pair; a collaborator failure
propagates (there is no try/except in the source). -/
def chatbotT (complete : Collaborator) (user_input : Option String)
    (chat_history : List (String × String)) :
    Except String (String × List (String × String)) × Nat :=
  let ui := pyStripStr (user_input.getD "")
  if ui = "" then (Except.ok ("", chat_history), 0)
  else
    match generate_reasons complete ui with
    | Except.error e => (Except.error e, 1)
    | Except.ok reasons =>
      let qtype := classify_question_type ui
      match generate_advice complete reasons qtype with
      | Except.error e => (Except.error e, 2)
      | Except.ok advice =>
        (Except.ok ("", chat_history ++ [ (ui, fullResponse reasons qtype advice) ]), 2)

/-- The `chatbot` turn handler's result (textbox value, chat history). -/
def chatbot (complete : Collaborator) (user_input : Option String)
    (chat_history : List (String × String)) :
    Except String (String × List (String × String)) :=
  (chatbotT complete user_input chat_history).1

/-- Number of collaborator calls a turn performs. -/
def chatbotCalls (complete : Collaborator) (user_input : Option String)
    (chat_history : List (String × String)) : Nat :=
  (chatbotT complete user_input chat_history).2

/-- The startup error message raised when `GROQ_API_KEY` is missing (the exact
source literal). -/
def apiKeyErrorMessage : String :=
  "❌ GROQ_API_KEY not found.\n\n✅ Fix options:\n1) Create a .env file in the project root with:\n   GROQ_API_KEY=your_key_here\n\n2) Or set it in Terminal:\n   export GROQ_API_KEY=\x27your_key_here\x27\n"

/-- Startup credential check: `api_key = os.getenv("GROQ_API_KEY")` followed by
`if not api_key: raise RuntimeError(...)`.  Python truthiness makes both a
missing variable (`None`) and an empty string falsy. -/
def loadApiKey (getenv : String → Option String) : Except String String :=
  match getenv "GROQ_API_KEY" with
  | none => Except.error apiKeyErrorMessage
  | some k => if k = "" then Except.error apiKeyErrorMessage else Except.ok k

-- ------------------------------------------------------------------
-- Helper lemmas about the substring primitive.
-- ------------------------------------------------------------------

theorem startsWith_self_append (p rest : List Char) :
    startsWith p (p ++ rest) = true := by
  induction p with
  | nil => rfl
  | cons a p ih => simp [startsWith, ih]

theorem strIn_of_startsWith {p s : List Char} (h : startsWith p s = true) :
    strIn p s = true := by
  cases s with
  | nil => simpa [strIn] using h
  | cons c t => simp [strIn, h]

theorem strIn_of_append (p pre post : List Char) :
    strIn p (pre ++ p ++ post) = true := by
  induction pre with
  | nil =>
    simpa using strIn_of_startsWith (startsWith_self_append p post)
  | cons c pre ih =>
    simp only [List.cons_append, strIn, List.append_eq, ih, Bool.or_true]

theorem kwMatch_of_mem {keys : List String} {k : String} {text : List Char}
    (hk : k ∈ keys) (h : strIn k.toList text = true) :
    kwMatch keys text = true :=
  List.any_eq_true.mpr ⟨k, hk, h⟩

-- ------------------------------------------------------------------
-- Claim theorems.
-- ------------------------------------------------------------------

/-- Claim C6: `classify_question_type` applied to the empty string returns
"Mixed"; the empty string needs no precondition. -/
theorem c6_empty_input_mixed : classify_question_type "" = "Mixed" := by
  decide

/-- Claim C7: the scenario input "I want to invest, what should I buy?" is
classified "Advice": no Knowledge keyword matches, and the Advice trigger
"what should i buy" already matches, so Personalized triggers such as
"i want" are never consulted. -/
theorem c7_scenario_advice :
    classify_question_type "I want to invest, what should I buy?" = "Advice"
      ∧ kwMatch knowledgeKeywords (lowered "I want to invest, what should I buy?") = false
      ∧ strIn ("what should i buy".toList) (lowered "I want to invest, what should I buy?") = true := by
  decide

/-- Claim C1 counterexample: the input "my situation" contains the substring
"my situation" and matches no Knowledge or Advice keyword, yet the classifier
returns "Mixed", not "Personalized" — the Personalized trigger in the source
is the longer "for my situation". -/
theorem c1_counterexample :
    strIn ("my situation".toList) (lowered "my situation") = true
      ∧ kwMatch knowledgeKeywords (lowered "my situation") = false
      ∧ kwMatch adviceKeywords (lowered "my situation") = false
      ∧ classify_question_type "my situation" = "Mixed" := by
  decide

/-- Claim C1 (amended): for every input whose lowercase form contains
"for my situation" or "i have", the classifier returns "Personalized"
unless a keyword from a higher-priority group (Knowledge, then Advice)
also matches. -/
theorem c1_personalized_of_trigger (s : String)
    (htrig : strIn ("for my situation".toList) (lowered s) = true
      ∨ strIn ("i have".toList) (lowered s) = true)
    (hk : kwMatch knowledgeKeywords (lowered s) = false)
    (ha : kwMatch adviceKeywords (lowered s) = false) :
    classify_question_type s = "Personalized" := by
  have hp : kwMatch personalizedKeywords (lowered s) = true := by
    rcases htrig with h | h
    · exact kwMatch_of_mem (by decide) h
    · exact kwMatch_of_mem (by decide) h
  simp [classify_question_type, hk, ha, hp]

/-- Claim C1 witness: "Now i have some savings" triggers "i have", matches no
higher-priority keyword, and is classified "Personalized". -/
theorem c1_witness :
    (strIn ("for my situation".toList) (lowered "Now i have some savings") = true
      ∨ strIn ("i have".toList) (lowered "Now i have some savings") = true)
      ∧ kwMatch knowledgeKeywords (lowered "Now i have some savings") = false
      ∧ kwMatch adviceKeywords (lowered "Now i have some savings") = false
      ∧ classify_question_type "Now i have some savings" = "Personalized" :=
  ⟨Or.inr (by decide), by decide, by decide,
    c1_personalized_of_trigger _ (Or.inr (by decide)) (by decide) (by decide)⟩

/-- Claim C4: classification is total — every input maps to one of the four
categories — and "Mixed" is the unconditional catch-all: when no keyword of
the three trigger groups matches, the result is "Mixed".  (Purity and
determinism hold by construction: `classify_question_type` is a Lean
function of the input string alone.) -/
theorem c4_classify_total (s : String) :
    (classify_question_type s = "Knowledge" ∨ classify_question_type s = "Advice"
      ∨ classify_question_type s = "Personalized" ∨ classify_question_type s = "Mixed")
      ∧ (kwMatch knowledgeKeywords (lowered s) = false →
          kwMatch adviceKeywords (lowered s) = false →
          kwMatch personalizedKeywords (lowered s) = false →
          classify_question_type s = "Mixed") := by
  cases hk : kwMatch knowledgeKeywords (lowered s) <;>
    cases ha : kwMatch adviceKeywords (lowered s) <;>
      cases hp : kwMatch personalizedKeywords (lowered s) <;>
        simp [classify_question_type, hk, ha, hp]

/-- Claim C4 witness: the totality theorem applied at "hello", whose lack of
matches also exercises the catch-all clause. -/
theorem c4_witness :
    (classify_question_type "hello" = "Knowledge"
        ∨ classify_question_type "hello" = "Advice"
        ∨ classify_question_type "hello" = "Personalized"
        ∨ classify_question_type "hello" = "Mixed")
      ∧ classify_question_type "hello" = "Mixed" :=
  ⟨(c4_classify_total "hello").1,
    (c4_classify_total "hello").2 (by decide) (by decide) (by decide)⟩

/-- Claim C5: every input containing "what is" in any letter case is
classified "Knowledge": the Knowledge group is tested first, so no other
group can override the match. -/
theorem c5_what_is_knowledge (s : String) (pre w post : List Char)
    (hsplit : s.toList = pre ++ w ++ post)
    (hw : w.map Char.toLower = "what is".toList) :
    classify_question_type s = "Knowledge" := by
  have htext : lowered s
      = (pre.map Char.toLower) ++ "what is".toList ++ (post.map Char.toLower) := by
    unfold lowered
    rw [hsplit, List.map_append, List.map_append, hw]
  have hk : kwMatch knowledgeKeywords (lowered s) = true := by
    rw [htext]
    exact kwMatch_of_mem (by decide) (strIn_of_append _ _ _)
  simp [classify_question_type, hk]

/-- Claim C5 witness: "Tell me: WHAT IS a bond?" contains the uppercase
variant "WHAT IS" and is classified "Knowledge". -/
theorem c5_witness :
    ("Tell me: WHAT IS a bond?").toList
        = ("Tell me: ").toList ++ ("WHAT IS").toList ++ (" a bond?").toList
      ∧ ("WHAT IS").toList.map Char.toLower = "what is".toList
      ∧ classify_question_type "Tell me: WHAT IS a bond?" = "Knowledge" :=
  ⟨by decide, by decide,
    c5_what_is_knowledge "Tell me: WHAT IS a bond?" ("Tell me: ").toList
      ("WHAT IS").toList (" a bond?").toList (by decide) (by decide)⟩

/-- Claim C2 counterexample: the "Advice" and "Mixed" categories receive the
identical instruction text — the source has only three template literals
(Knowledge, Personalized, and a shared else branch), not four distinct ones,
so there is no template that is exactly one per category. -/
theorem c2_counterexample :
    adviceSystemPrompt "Advice" = adviceSystemPrompt "Mixed"
      ∧ ("Advice" : String) ≠ "Mixed" := by
  exact ⟨rfl, by decide⟩

/-- Claim C2 (amended): the advice generator selects among three literal
instruction templates — one for Knowledge, one for Personalized, and a
shared default used for both Advice and Mixed — and for every category and
context string the message list it builds carries the exact fixed
instruction text for that category together with the supplied context
verbatim as the user message. -/
theorem c2_template_selection (ctx : String) :
    adviceMessages ctx "Knowledge"
        = [ ("system", "You are a financial education expert.\nAnswer concisely in a professional tone.\nUse 3 bullet points to explain the concept, then add 1 sentence on how it relates to funds or bonds.\nEnd with: This is for educational purposes only."), ("user", ctx) ]
      ∧ adviceMessages ctx "Personalized"
        = [ ("system", "You are a financial educator.\nBased on the user\x27s context, provide 3 example allocation mixes:\n- Conservative\n- Balanced\n- Aggressive\nUse percentages and explain who each fits.\nAvoid buy/sell instructions.\nClearly state: This is not financial advice; for educational purposes only."), ("user", ctx) ]
      ∧ adviceMessages ctx "Advice"
        = [ ("system", "You are a professional investment educator.\nBased on the reasons below, provide practical, constructive guidance.\nInclude: suggested asset direction, example allocation ratios, and suitable profiles.\nAvoid buy/sell instructions.\nEnd with: For educational purposes only."), ("user", ctx) ]
      ∧ adviceMessages ctx "Mixed"
        = [ ("system", "You are a professional investment educator.\nBased on the reasons below, provide practical, constructive guidance.\nInclude: suggested asset direction, example allocation ratios, and suitable profiles.\nAvoid buy/sell instructions.\nEnd with: For educational purposes only."), ("user", ctx) ] :=
  ⟨rfl, rfl, rfl, rfl⟩

/-- Claim C2 witness: the template selection evaluated at a concrete context
for the "Mixed" category. -/
theorem c2_witness :
    adviceMessages "five reasons here" "Mixed"
        = [ ("system", "You are a professional investment educator.\nBased on the reasons below, provide practical, constructive guidance.\nInclude: suggested asset direction, example allocation ratios, and suitable profiles.\nAvoid buy/sell instructions.\nEnd with: For educational purposes only."), ("user", "five reasons here") ] :=
  (c2_template_selection "five reasons here").2.2.2

/-- Claim C3 counterexample: with a collaborator that fails, the turn handler
returns the failure itself — the error propagates out of `chatbot` instead of
being converted into an error message appended to the transcript (the source
has no try/except around the collaborator calls). -/
theorem c3_counterexample :
    chatbot (fun _ => Except.error "boom") (some "hi") [] = Except.error "boom" := by
  rfl

/-- Claim C3 (amended): a failure of the inference collaborator is NOT caught
at the turn-handler boundary: if the reasons call fails, `chatbot` propagates
that very error to its caller (the GUI framework), and no entry is appended
to the transcript. -/
theorem c3_error_propagates (complete : Collaborator) (input : Option String)
    (hist : List (String × String)) (e : String)
    (hne : pyStripStr (input.getD "") ≠ "")
    (herr : generate_reasons complete (pyStripStr (input.getD "")) = Except.error e) :
    chatbot complete input hist = Except.error e := by
  simp [chatbot, chatbotT, hne, herr]

/-- Claim C3 witness: error propagation evaluated at a failing collaborator,
the input "hi" and an empty history. -/
theorem c3_witness :
    pyStripStr ((some "hi").getD "") ≠ ""
      ∧ generate_reasons (fun _ => Except.error "down") (pyStripStr ((some "hi").getD ""))
          = Except.error "down"
      ∧ chatbot (fun _ => Except.error "down") (some "hi") [] = Except.error "down" :=
  ⟨by decide, rfl,
    c3_error_propagates (fun _ => Except.error "down") (some "hi") [] "down" (by decide) rfl⟩

/-- Claim C8 counterexample: a credential that is present in the environment
but empty still aborts startup — Python `if not api_key` treats the empty
string as missing, so "present implies startup proceeds" fails. -/
theorem c8_counterexample :
    loadApiKey (fun _ => some "") = Except.error apiKeyErrorMessage := rfl

/-- Claim C8 (amended): startup fails with the single fixed error when the
API key is absent from the environment, and proceeds whenever the key is
present and non-empty (a present-but-empty key also fails, see the
counterexample). -/
theorem c8_startup_check (env : String → Option String) :
    (env "GROQ_API_KEY" = none → loadApiKey env = Except.error apiKeyErrorMessage)
      ∧ (∀ k : String, env "GROQ_API_KEY" = some k → k ≠ "" →
          loadApiKey env = Except.ok k) := by
  constructor
  · intro h
    simp [loadApiKey, h]
  · intro k hk hne
    simp [loadApiKey, hk, hne]

/-- Claim C8 witness: the startup check at an empty environment and at one
holding a non-empty key. -/
theorem c8_witness :
    loadApiKey (fun _ => none) = Except.error apiKeyErrorMessage
      ∧ loadApiKey (fun _ => some "gsk-test-123") = Except.ok "gsk-test-123" :=
  ⟨(c8_startup_check (fun _ => none)).1 rfl,
    (c8_startup_check (fun _ => some "gsk-test-123")).2 "gsk-test-123" rfl (by decide)⟩

/-- Case analysis of a successful turn: either the stripped input was empty
and the handler returned the history untouched, or it appended exactly one
(question, response) pair at the end. -/
theorem chatbot_ok_cases (complete : Collaborator) (input : Option String)
    (hist : List (String × String)) (s : String) (h2 : List (String × String))
    (h : chatbot complete input hist = Except.ok (s, h2)) :
    (pyStripStr (input.getD "") = "" ∧ s = "" ∧ h2 = hist)
      ∨ (pyStripStr (input.getD "") ≠ "" ∧ s = ""
          ∧ ∃ resp, h2 = hist ++ [ (pyStripStr (input.getD ""), resp) ]) := by
  by_cases hui : pyStripStr (input.getD "") = ""
  · left
    have hc : chatbot complete input hist = Except.ok ("", hist) := by
      simp [chatbot, chatbotT, hui]
    rw [hc] at h
    have h3 := h.symm
    simp only [Except.ok.injEq, Prod.mk.injEq] at h3
    exact ⟨hui, h3.1, h3.2⟩
  · right
    cases hre : generate_reasons complete (pyStripStr (input.getD "")) with
    | error e =>
      have hc : chatbot complete input hist = Except.error e := by
        simp [chatbot, chatbotT, hui, hre]
      rw [hc] at h
      cases h
    | ok reasons =>
      cases hadv : generate_advice complete reasons
          (classify_question_type (pyStripStr (input.getD ""))) with
      | error e =>
        have hc : chatbot complete input hist = Except.error e := by
          simp [chatbot, chatbotT, hui, hre, hadv]
        rw [hc] at h
        cases h
      | ok advice =>
        have hc : chatbot complete input hist
            = Except.ok ("", hist ++ [ (pyStripStr (input.getD ""),
                fullResponse reasons
                  (classify_question_type (pyStripStr (input.getD ""))) advice) ]) := by
          simp [chatbot, chatbotT, hui, hre, hadv]
        rw [hc] at h
        have h3 := h.symm
        simp only [Except.ok.injEq, Prod.mk.injEq] at h3
        exact ⟨hui, h3.1,
          ⟨fullResponse reasons (classify_question_type (pyStripStr (input.getD ""))) advice,
            h3.2⟩⟩

/-- Claim C9: the transcript is append-only — whenever a turn completes, the
history it returns extends the incoming history: every pre-existing entry is
unchanged and in its original order, with new entries only at the end. -/
theorem c9_history_append_only (complete : Collaborator) (input : Option String)
    (hist : List (String × String)) (s : String) (h2 : List (String × String))
    (h : chatbot complete input hist = Except.ok (s, h2)) :
    ∃ tail, h2 = hist ++ tail := by
  rcases chatbot_ok_cases complete input hist s h2 h with ⟨_, _, he⟩ | ⟨_, _, resp, he⟩
  · exact ⟨[], by simp [he]⟩
  · exact ⟨[ (pyStripStr (input.getD ""), resp) ], he⟩

/-- Claim C9 witness: a successful turn on the input "hi" over a one-entry
history extends that history. -/
theorem c9_witness :
    ∃ tail, [ ("a", "b"), ("hi", fullResponse "R" "Mixed" "R") ] = [ ("a", "b") ] ++ tail :=
  c9_history_append_only (fun _ => Except.ok "R") (some "hi") [ ("a", "b") ]
    "" [ ("a", "b"), ("hi", fullResponse "R" "Mixed" "R") ] rfl

/-- Claim C10: if the submitted input is None, empty, or whitespace-only
(stripped form empty), the turn handler returns ("", history) with the
history unchanged and performs zero collaborator calls; otherwise any
normally completed turn returns "" as the new textbox value and appends
exactly one (question, response) pair, the question being the stripped
input. -/
theorem c10_frame (complete : Collaborator) (input : Option String)
    (hist : List (String × String)) :
    (pyStripStr (input.getD "") = "" →
        chatbotT complete input hist = (Except.ok ("", hist), 0))
      ∧ (∀ s h2, chatbot complete input hist = Except.ok (s, h2) →
          pyStripStr (input.getD "") ≠ "" →
          s = "" ∧ ∃ resp, h2 = hist ++ [ (pyStripStr (input.getD ""), resp) ]) := by
  constructor
  · intro hui
    simp [chatbotT, hui]
  · intro s h2 h hne
    rcases chatbot_ok_cases complete input hist s h2 h with ⟨hui, _, _⟩ | ⟨_, hs, hresp⟩
    · exact absurd hui hne
    · exact ⟨hs, hresp⟩

/-- Claim C10 witness: a None input leaves the history alone with zero
collaborator calls, and the turn on "hi" appends exactly one pair. -/
theorem c10_witness :
    chatbotT (fun _ => Except.ok "R") none [ ("a", "b") ]
        = (Except.ok ("", [ ("a", "b") ]), 0)
      ∧ (("" : String) = ""
          ∧ ∃ resp, [ ("a", "b"), ("hi", fullResponse "R" "Mixed" "R") ]
              = [ ("a", "b") ] ++ [ (pyStripStr ((some "hi").getD ""), resp) ]) :=
  ⟨(c10_frame (fun _ => Except.ok "R") none [ ("a", "b") ]).1 rfl,
    (c10_frame (fun _ => Except.ok "R") (some "hi") [ ("a", "b") ]).2
      "" [ ("a", "b"), ("hi", fullResponse "R" "Mixed" "R") ] rfl (by decide)⟩
